import Mathlib

/-!
Shallow embedding of the two route files of the ChamaControl backend
(src/backend/routes/index.js and the unnamed duplicate route file), focused
on the inline handlers they define: the /hello liveness handler and the two
variants of the /noticias news-proxy handler.

The express response object is modelled as an explicit record threaded
through the handler; the axios client is modelled as an oracle function from
the outbound request to an outcome, and the handler result additionally
records the list of outbound requests actually issued, so that claims about
the number of network calls can be stated.
-/

namespace ChamaControl

/-- A JS string-or-undefined value, as read from process.env or req.query. -/
abbrev JSStr := Option String

/-- JS truthiness of a string-or-undefined value: undefined and the empty
string are falsy, every other string is truthy.  This is the test performed
by the source in the checks if not apiKey, req.query.to and the conditional
expression building dateFilter. -/
def truthy : JSStr → Bool
  | none => false
  | some s => s ≠ ""

/-- The inbound request: the only part of req the handlers read is the
optional query parameter to (req.query.to). -/
structure Request where
  queryTo : JSStr
deriving DecidableEq

/-- The express response object as the handlers drive it: a status code
(defaulting to 200), the headers set so far by setHeader, and the body once
json or send has been called. -/
structure Res where
  statusCode : Nat := 200
  headers : List (String × String) := []
  body : Option String := none
deriving DecidableEq

/-- A fresh response object, before the handler has touched it. -/
def Res.init : Res := {}

/-- res.setHeader(name, value): records the header. -/
def Res.setHeader (r : Res) (name value : String) : Res :=
  { r with headers := r.headers ++ [(name, value)] }

/-- res.status(code): sets the status code. -/
def Res.status (r : Res) (code : Nat) : Res :=
  { r with statusCode := code }

/-- res.json(payload): sends the serialized payload as the body. -/
def Res.json (r : Res) (payload : String) : Res :=
  { r with body := some payload }

/-- res.send(payload): sends the payload as the body. -/
def Res.send (r : Res) (payload : String) : Res :=
  { r with body := some payload }

/-- The /hello handler of both route files: res.send of a fixed text.  It
reads nothing from the environment; the env argument records that the
response is the same for every process environment. -/
def helloHandler (_env : JSStr) (res : Res) : Res :=
  res.send "Hello world"

/-- The outcome of the single axios.get call, as the catch block of the
unnamed route file distinguishes the cases: a success carrying the upstream
body, an upstream error response (error.response present), no response
received (error.request present), or a failure to build the request. -/
inductive UpstreamOutcome where
  | success (data : String)
  | errorResponse (status : Nat) (data : String) (headers : String)
  | noResponse (request : String)
  | buildError (msg : String)
deriving DecidableEq

/-- Whether the axios call resolved (the try block continues past await). -/
def UpstreamOutcome.isSuccess : UpstreamOutcome → Bool
  | .success _ => true
  | _ => false

/-- The serialization of the fixed error object
res.status(500).json(\x7b error: 'Falha ao buscar notícias externas.' \x7d)
shared by both variants of the /noticias handler. -/
def errorBody : String := "\x7b\"error\":\"Falha ao buscar notícias externas.\"\x7d"

/-- The fixed full-text query expression, identical in both route files. -/
def fixedQuery : String :=
  "queimadas AND (Amazônia OR floresta OR cerrado OR Pantanal OR Norte OR Sul OR Sudeste OR Nordeste OR Caatinga OR Pampa OR \"Mata Atlântica\" OR \"Centro-Oeste\" OR Brasil) NOT (\"LA\" OR \"Los Angeles\")"

/-- The params object of the structured-parameter variant (the unnamed route
file): q, country, max and token are always set, and to is added only when
req.query.to is truthy. -/
structure GNewsParams where
  q : String
  country : String
  max : Nat
  token : String
  «to» : Option String
deriving DecidableEq

/-- Construction of the params object, lines 47 to 57 of the unnamed route
file: the fixed fields, then if (req.query.to) params.to = req.query.to. -/
def structuredParams (apiKey : String) (req : Request) : GNewsParams :=
  { q := fixedQuery
    country := "br"
    max := 10
    token := apiKey
    «to» := if truthy req.queryTo then req.queryTo else none }

/-- The /noticias handler of the unnamed route file (structured-parameter
variant).  Returns the final response object and the list of outbound
requests issued.  A falsy GNEWS_API_KEY throws before the axios call and the
catch block answers 500 with the fixed error body; on a successful axios
call the three cache-disabling headers are set and the upstream data is
relayed; on any axios rejection the catch block answers 500 with the fixed
error body. -/
def noticiasStructured (env : JSStr) (req : Request)
    (upstream : GNewsParams → UpstreamOutcome) (res : Res) :
    Res × List GNewsParams :=
  if truthy env then
    let apiKey := env.getD ""
    let params := structuredParams apiKey req
    match upstream params with
    | .success data =>
        ((((res.setHeader "Cache-Control" "no-cache, no-store, must-revalidate").setHeader
            "Pragma" "no-cache").setHeader "Expires" "0").json data,
         [params])
    | _ => ((res.status 500).json errorBody, [params])
  else
    ((res.status 500).json errorBody, [])

/-- The dateFilter expression of src/backend/routes/index.js, line 44:
lastPublishedAt ? "&to=" + lastPublishedAt : "". -/
def dateFilter (queryTo : JSStr) : String :=
  if truthy queryTo then "&to=" ++ queryTo.getD "" else ""

/-- The url template literal of src/backend/routes/index.js, line 45. -/
def manualUrl (apiKey : String) (queryTo : JSStr) : String :=
  "https://gnews.io/api/v4/search?q=" ++ fixedQuery ++ "&country=br&max=10"
    ++ dateFilter queryTo ++ "&token=" ++ apiKey

/-- The /noticias handler of src/backend/routes/index.js (manual
string-interpolation variant): same credential check and catch block, but
the outbound request is the interpolated url string, and no headers are set
on the success path. -/
def noticiasManual (env : JSStr) (req : Request)
    (upstream : String → UpstreamOutcome) (res : Res) :
    Res × List String :=
  if truthy env then
    let url := manualUrl (env.getD "") req.queryTo
    match upstream url with
    | .success data => (res.json data, [url])
    | _ => ((res.status 500).json errorBody, [url])
  else
    ((res.status 500).json errorBody, [])

/-- The three cache-disabling headers in the order the unnamed route file
sets them. -/
def cacheHeaders : List (String × String) :=
  [("Cache-Control", "no-cache, no-store, must-revalidate"),
   ("Pragma", "no-cache"),
   ("Expires", "0")]

/-!
A standard query-string reading of the interpolated url of the manual
variant: the part after the first question mark, split on ampersands, each
segment split at its first equals sign.  This is how the upstream server
decodes the request, and it lets the parameter-injection claim about the
unencoded dateFilter concatenation be stated precisely.
-/

/-- Split a character list on a separator character; the separator is
dropped, empty segments are kept. -/
def splitOnChar (c : Char) : List Char → List (List Char)
  | [] => [[]]
  | x :: xs =>
    let r := splitOnChar c xs
    if x = c then [] :: r
    else (x :: r.headD []) :: r.tail

/-- Read one query segment as a key-value pair: the key is everything before
the first equals sign, the value everything after it. -/
def parsePair (l : List Char) : String × String :=
  (String.mk (l.takeWhile (fun c => c != '=')),
   String.mk ((l.dropWhile (fun c => c != '=')).drop 1))

/-- The characters of a url after the first question mark. -/
def queryChars (s : String) : List Char :=
  (s.data.dropWhile (fun c => c != '?')).drop 1

/-- The query parameters a standard decoder extracts from a url. -/
def parseQuery (s : String) : List (String × String) :=
  (splitOnChar '&' (queryChars s)).map parsePair

theorem splitOnChar_ne_nil (c : Char) (l : List Char) : splitOnChar c l ≠ [] := by
  cases l with
  | nil => simp [splitOnChar]
  | cons x xs =>
    simp only [splitOnChar]
    split <;> simp

theorem headD_cons_tail {α : Type} (l : List (List α)) (h : l ≠ []) :
    l.headD [] :: l.tail = l := by
  cases l with
  | nil => exact absurd rfl h
  | cons x xs => rfl

/-- Splitting a concatenation whose first part avoids the separator prepends
that part onto the first segment. -/
theorem splitOnChar_append_left (c : Char) (xs ys : List Char) (h : c ∉ xs) :
    splitOnChar c (xs ++ ys) =
      (xs ++ (splitOnChar c ys).headD []) :: (splitOnChar c ys).tail := by
  induction xs with
  | nil =>
    simp only [List.nil_append]
    exact (headD_cons_tail _ (splitOnChar_ne_nil c ys)).symm
  | cons x xs ih =>
    have hxc : x ≠ c := fun hx => h (hx ▸ List.mem_cons_self x xs)
    have hxs : c ∉ xs := fun hm => h (List.mem_cons_of_mem x hm)
    have ihx : splitOnChar c (xs.append ys) =
        (xs ++ (splitOnChar c ys).headD []) :: (splitOnChar c ys).tail := ih hxs
    simp only [List.cons_append, splitOnChar, ihx, if_neg hxc,
      List.headD_cons, List.tail_cons]

/-- A list avoiding the separator is a single segment. -/
theorem splitOnChar_no_sep (c : Char) (l : List Char) (h : c ∉ l) :
    splitOnChar c l = [l] := by
  have := splitOnChar_append_left c l [] h
  simpa [splitOnChar] using this

/-- Splitting at an explicit separator occurrence after a separator-free
part cuts exactly there. -/
theorem splitOnChar_append_sep (c : Char) (xs ys : List Char) (h : c ∉ xs) :
    splitOnChar c (xs ++ c :: ys) = xs :: splitOnChar c ys := by
  rw [splitOnChar_append_left c xs (c :: ys) h]
  simp [splitOnChar]

theorem dropWhile_append_of_all {α : Type} (p : α → Bool) (xs ys : List α)
    (h : ∀ x ∈ xs, p x = true) :
    List.dropWhile p (xs ++ ys) = List.dropWhile p ys := by
  induction xs with
  | nil => rfl
  | cons x xs ih =>
    simp only [List.cons_append, List.dropWhile_cons,
      h x (List.mem_cons_self x xs), if_true]
    exact ih fun a ha => h a (List.mem_cons_of_mem x ha)

/-!  Helper lemmas shared by the claim theorems. -/

/-- The uniform failure response both catch blocks produce. -/
def failureRes : Res :=
  { statusCode := 500, headers := [], body := some errorBody }

/-- The success response of the structured-parameter variant. -/
def successRes (data : String) : Res :=
  { statusCode := 200, headers := cacheHeaders, body := some data }

theorem structured_calls (env : JSStr) (req : Request)
    (u : GNewsParams → UpstreamOutcome) :
    (noticiasStructured env req u Res.init).2 =
      if truthy env then [structuredParams (env.getD "") req] else [] := by
  by_cases henv : truthy env
  · cases hu : u (structuredParams (env.getD "") req) <;>
      simp [noticiasStructured, henv, hu]
  · simp [noticiasStructured, henv]

theorem manual_calls (env : JSStr) (req : Request)
    (u : String → UpstreamOutcome) :
    (noticiasManual env req u Res.init).2 =
      if truthy env then [manualUrl (env.getD "") req.queryTo] else [] := by
  by_cases henv : truthy env
  · cases hu : u (manualUrl (env.getD "") req.queryTo) <;>
      simp [noticiasManual, henv, hu]
  · simp [noticiasManual, henv]

theorem structured_failure_res (env : JSStr) (req : Request)
    (u : GNewsParams → UpstreamOutcome)
    (h : truthy env = false ∨
      (u (structuredParams (env.getD "") req)).isSuccess = false) :
    (noticiasStructured env req u Res.init).1 = failureRes := by
  by_cases henv : truthy env
  · rcases h with h | h
    · exact absurd henv (by simp [h])
    · cases hu : u (structuredParams (env.getD "") req) <;>
        simp [hu, UpstreamOutcome.isSuccess] at h ⊢ <;>
        simp [noticiasStructured, henv, hu, failureRes, Res.init, Res.status,
          Res.json]
  · simp [noticiasStructured, henv, failureRes, Res.init, Res.status, Res.json]

theorem manual_failure_res (env : JSStr) (req : Request)
    (u : String → UpstreamOutcome)
    (h : truthy env = false ∨
      (u (manualUrl (env.getD "") req.queryTo)).isSuccess = false) :
    (noticiasManual env req u Res.init).1 = failureRes := by
  by_cases henv : truthy env
  · rcases h with h | h
    · exact absurd henv (by simp [h])
    · cases hu : u (manualUrl (env.getD "") req.queryTo) <;>
        simp [hu, UpstreamOutcome.isSuccess] at h ⊢ <;>
        simp [noticiasManual, henv, hu, failureRes, Res.init, Res.status,
          Res.json]
  · simp [noticiasManual, henv, failureRes, Res.init, Res.status, Res.json]

/-!  Claim theorems. -/

/-- C1: for every GET request to /noticias handled while the GNEWS_API_KEY
environment credential is absent (unset or empty), the handler responds with
HTTP status 500 and the fixed error body, and no outbound network call to
the upstream service is made.  Stated for both handler variants: the whole
result pair equals the fixed failure response together with an empty list of
outbound calls. -/
theorem noticias_missing_credential (env : JSStr) (req : Request)
    (u1 : GNewsParams → UpstreamOutcome) (u2 : String → UpstreamOutcome)
    (h : truthy env = false) :
    noticiasStructured env req u1 Res.init = (failureRes, []) ∧
    noticiasManual env req u2 Res.init = (failureRes, []) := by
  constructor <;>
    simp [noticiasStructured, noticiasManual, h, failureRes, Res.init,
      Res.status, Res.json]

/-- Witness for C1 at the concrete environment with the credential unset. -/
theorem noticias_missing_credential_witness :
    truthy none = false ∧
    (noticiasStructured none ⟨none⟩ (fun _ => UpstreamOutcome.success "B")
        Res.init = (failureRes, []) ∧
     noticiasManual none ⟨none⟩ (fun _ => UpstreamOutcome.success "B")
        Res.init = (failureRes, [])) :=
  ⟨rfl, noticias_missing_credential none ⟨none⟩
    (fun _ => UpstreamOutcome.success "B")
    (fun _ => UpstreamOutcome.success "B") rfl⟩

/-- C2: for every GET request to /noticias where the credential is
configured and the upstream call succeeds, the body returned to the caller
is exactly the upstream response body, and the response carries the three
cache-disabling headers.  Proved for the structured-parameter variant, the
one the specification follows. -/
theorem noticias_success_passthrough (env : JSStr) (req : Request)
    (u : GNewsParams → UpstreamOutcome) (data : String)
    (henv : truthy env = true)
    (hu : u (structuredParams (env.getD "") req) = .success data) :
    (noticiasStructured env req u Res.init).1 = successRes data := by
  simp [noticiasStructured, henv, hu, successRes, cacheHeaders, Res.init,
    Res.setHeader, Res.json]

/-- Witness for C2: credential set, a pagination cursor supplied, the
upstream answering a concrete JSON body. -/
theorem noticias_success_passthrough_witness :
    truthy (some "k") = true ∧
    (fun _ : GNewsParams => UpstreamOutcome.success "\x7b\"articles\":[]\x7d")
        (structuredParams ((some "k" : JSStr).getD "")
          ⟨some "2024-01-15T00:00:00Z"⟩) =
      .success "\x7b\"articles\":[]\x7d" ∧
    (noticiasStructured (some "k") ⟨some "2024-01-15T00:00:00Z"⟩
        (fun _ => UpstreamOutcome.success "\x7b\"articles\":[]\x7d")
        Res.init).1 =
      successRes "\x7b\"articles\":[]\x7d" :=
  ⟨by decide, rfl,
   noticias_success_passthrough (some "k") ⟨some "2024-01-15T00:00:00Z"⟩
     (fun _ => UpstreamOutcome.success "\x7b\"articles\":[]\x7d")
     "\x7b\"articles\":[]\x7d" (by decide) rfl⟩

/-- C3: every failure of a GET /noticias request (missing credential, or an
axios rejection of any of the three kinds, which are exactly the
non-success outcomes) produces the same fixed caller-visible response:
status 500 with the fixed error body and nothing else, in both handler
variants; in particular no part of the underlying cause reaches the
caller. -/
theorem noticias_failure_uniform (env : JSStr) (req : Request)
    (u1 : GNewsParams → UpstreamOutcome) (u2 : String → UpstreamOutcome)
    (h : truthy env = false ∨
      ((u1 (structuredParams (env.getD "") req)).isSuccess = false ∧
       (u2 (manualUrl (env.getD "") req.queryTo)).isSuccess = false)) :
    (noticiasStructured env req u1 Res.init).1 = failureRes ∧
    (noticiasManual env req u2 Res.init).1 = failureRes := by
  rcases h with h | ⟨h1, h2⟩
  · exact ⟨structured_failure_res env req u1 (Or.inl h),
      manual_failure_res env req u2 (Or.inl h)⟩
  · exact ⟨structured_failure_res env req u1 (Or.inr h1),
      manual_failure_res env req u2 (Or.inr h2)⟩

/-- Witness for C3: credential set, both upstream oracles answering an
upstream error response. -/
theorem noticias_failure_uniform_witness :
    (truthy (some "k") = false ∨
      ((UpstreamOutcome.errorResponse 403 "d" "h").isSuccess = false ∧
       (UpstreamOutcome.errorResponse 403 "d" "h").isSuccess = false)) ∧
    ((noticiasStructured (some "k") ⟨none⟩
        (fun _ => UpstreamOutcome.errorResponse 403 "d" "h") Res.init).1 =
      failureRes ∧
     (noticiasManual (some "k") ⟨none⟩
        (fun _ => UpstreamOutcome.errorResponse 403 "d" "h") Res.init).1 =
      failureRes) :=
  ⟨Or.inr ⟨rfl, rfl⟩,
   noticias_failure_uniform (some "k") ⟨none⟩
     (fun _ => UpstreamOutcome.errorResponse 403 "d" "h")
     (fun _ => UpstreamOutcome.errorResponse 403 "d" "h")
     (Or.inr ⟨rfl, rfl⟩)⟩

/-- C4: a present non-empty to query value is forwarded exactly (as the to
field of the params object in the structured variant, and as the dateFilter
suffix in the manual variant); an absent to yields no to parameter at all
(the to field stays unset and the dateFilter is the empty string). -/
theorem noticias_to_forwarding (key v : String) (hv : v ≠ "") :
    (structuredParams key ⟨some v⟩).«to» = some v ∧
    (structuredParams key ⟨none⟩).«to» = none ∧
    dateFilter (some v) = "&to=" ++ v ∧
    dateFilter none = "" := by
  simp [structuredParams, dateFilter, truthy, hv]

/-- Witness for C4 at the concrete cursor of the specification scenario. -/
theorem noticias_to_forwarding_witness :
    "2024-01-15T00:00:00Z" ≠ "" ∧
    ((structuredParams "k" ⟨some "2024-01-15T00:00:00Z"⟩).«to» =
        some "2024-01-15T00:00:00Z" ∧
     (structuredParams "k" ⟨none⟩).«to» = none ∧
     dateFilter (some "2024-01-15T00:00:00Z") =
        "&to=" ++ "2024-01-15T00:00:00Z" ∧
     dateFilter none = "") :=
  ⟨by decide, noticias_to_forwarding "k" "2024-01-15T00:00:00Z" (by decide)⟩

/-- C5: every outbound request issued by the structured-parameter /noticias
handler carries the fixed query expression, country br and max 10, whatever
the inbound request and the environment were. -/
theorem noticias_fixed_outbound_params (env : JSStr) (req : Request)
    (u : GNewsParams → UpstreamOutcome) (p : GNewsParams)
    (hp : p ∈ (noticiasStructured env req u Res.init).2) :
    p.q = fixedQuery ∧ p.country = "br" ∧ p.max = 10 := by
  rw [structured_calls] at hp
  by_cases henv : truthy env
  · rw [if_pos henv, List.mem_singleton] at hp
    subst hp
    exact ⟨rfl, rfl, rfl⟩
  · rw [if_neg henv] at hp
    exact absurd hp (List.not_mem_nil p)

/-- Witness for C5: the call issued for a concrete request carries the
three fixed values. -/
theorem noticias_fixed_outbound_params_witness :
    structuredParams "k" ⟨none⟩ ∈
      (noticiasStructured (some "k") ⟨none⟩
        (fun _ => UpstreamOutcome.success "B") Res.init).2 ∧
    ((structuredParams "k" ⟨none⟩).q = fixedQuery ∧
     (structuredParams "k" ⟨none⟩).country = "br" ∧
     (structuredParams "k" ⟨none⟩).max = 10) :=
  ⟨by rw [structured_calls]; simp [truthy],
   noticias_fixed_outbound_params (some "k") ⟨none⟩
     (fun _ => UpstreamOutcome.success "B") (structuredParams "k" ⟨none⟩)
     (by rw [structured_calls]; simp [truthy])⟩

/-- C7: the /hello handler answers status 200 with the fixed plain-text
body for every process environment. -/
theorem hello_fixed_response (env : JSStr) :
    (helloHandler env Res.init).statusCode = 200 ∧
    (helloHandler env Res.init).body = some "Hello world" :=
  ⟨rfl, rfl⟩

/-- C8: each inbound /noticias request issues exactly one outbound call
when the credential is configured and zero when it is not, in both handler
variants; no code path issues a second call. -/
theorem noticias_single_call (env : JSStr) (req : Request)
    (u1 : GNewsParams → UpstreamOutcome) (u2 : String → UpstreamOutcome) :
    (noticiasStructured env req u1 Res.init).2.length =
      (if truthy env then 1 else 0) ∧
    (noticiasManual env req u2 Res.init).2.length =
      (if truthy env then 1 else 0) := by
  rw [structured_calls, manual_calls]
  by_cases henv : truthy env <;> simp [henv]

/-- C10: the structured-parameter variant sets the three cache-disabling
headers exactly on the success path; every failure response leaves the
header list empty. -/
theorem noticias_headers_only_on_success (env : JSStr) (req : Request)
    (u : GNewsParams → UpstreamOutcome) :
    (noticiasStructured env req u Res.init).1.headers =
      (if truthy env && (u (structuredParams (env.getD "") req)).isSuccess
       then cacheHeaders else []) := by
  by_cases henv : truthy env
  · cases hu : u (structuredParams (env.getD "") req) <;>
      simp [noticiasStructured, henv, hu, UpstreamOutcome.isSuccess,
        cacheHeaders, Res.init, Res.setHeader, Res.status, Res.json]
  · simp [noticiasStructured, henv, Res.init, Res.status, Res.json]

/-- C6 counterexample: with the credential set and a successful upstream
outcome, the structured-parameter variant answers with the three
cache-disabling headers while the manual variant answers with none, so the
two variants are not equivalent on caller-visible headers. -/
theorem noticias_variants_header_divergence :
    (noticiasStructured (some "k") ⟨none⟩
        (fun _ => UpstreamOutcome.success "B") Res.init).1.headers ≠
      (noticiasManual (some "k") ⟨none⟩
        (fun _ => UpstreamOutcome.success "B") Res.init).1.headers := by
  simp [noticiasStructured, noticiasManual, truthy, Res.init, Res.setHeader,
    Res.json]

/-- C6 amended: for every inbound request, environment and upstream outcome
the two /noticias handler variants produce the same caller-visible status
and body; on a successful outcome their headers differ, the structured
variant setting the three cache-disabling headers and the manual variant
none. -/
theorem noticias_variants_agree_status_body (env : JSStr) (req : Request)
    (o : UpstreamOutcome) :
    (noticiasStructured env req (fun _ => o) Res.init).1.statusCode =
      (noticiasManual env req (fun _ => o) Res.init).1.statusCode ∧
    (noticiasStructured env req (fun _ => o) Res.init).1.body =
      (noticiasManual env req (fun _ => o) Res.init).1.body := by
  by_cases henv : truthy env <;> cases o <;>
    simp [noticiasStructured, noticiasManual, henv, Res.init, Res.setHeader,
      Res.status, Res.json]

/-- Splitting at any single separator occurrence splits compositionally,
with no condition on either side. -/
theorem splitOnChar_append_split (c : Char) (xs ys : List Char) :
    splitOnChar c (xs ++ c :: ys) = splitOnChar c xs ++ splitOnChar c ys := by
  induction xs with
  | nil => simp [splitOnChar]
  | cons x xs ih =>
    by_cases hx : x = c
    · subst hx
      simp [List.cons_append, splitOnChar, ih]
    · cases hxs : splitOnChar c xs with
      | nil => exact absurd hxs (splitOnChar_ne_nil c xs)
      | cons s ss =>
        have ihx : splitOnChar c (xs.append (c :: ys)) =
            splitOnChar c xs ++ splitOnChar c ys := ih
        simp only [List.cons_append, splitOnChar, ihx, hxs, if_neg hx,
          List.headD_cons, List.tail_cons]

/-- A list containing a character decomposes at its first occurrence: the
part before it (free of the character), the character, and the rest. -/
theorem split_at_first_mem (c : Char) (l : List Char) (h : c ∈ l) :
    l.takeWhile (fun x => x != c) ++
      c :: ((l.dropWhile (fun x => x != c)).drop 1) = l ∧
    c ∉ l.takeWhile (fun x => x != c) := by
  induction l with
  | nil => cases h
  | cons x l ih =>
    by_cases hx : x = c
    · subst hx
      constructor
      · simp [List.takeWhile_cons, List.dropWhile_cons]
      · simp [List.takeWhile_cons]
    · have hcl : c ∈ l := by
        rcases List.mem_cons.mp h with h1 | h1
        · exact absurd h1.symm hx
        · exact h1
      obtain ⟨ih1, ih2⟩ := ih hcl
      have hxb : (x != c) = true := by simp [hx]
      constructor
      · simp only [List.takeWhile_cons, List.dropWhile_cons, hxb, if_true,
          List.cons_append, ih1]
      · simp only [List.takeWhile_cons, hxb, if_true]
        intro hmem
        rcases List.mem_cons.mp hmem with h1 | h1
        · exact hx h1.symm
        · exact ih2 h1

set_option maxRecDepth 4000 in
/-- The query part of the interpolated url, for any truthy to value v: the
three fixed parameter segments, then to= followed by v verbatim, an
ampersand, and the token segment. -/
theorem manualUrl_queryChars (key v : String) (hne : v ≠ "") :
    queryChars (manualUrl key (some v)) =
      ("q=" ++ fixedQuery).data ++ '&' ::
        ("country=br".data ++ '&' ::
          ("max=10".data ++ '&' ::
            (("to=".data ++ v.data) ++ '&' ::
              ("token=".data ++ key.data)))) := by
  have hdf : dateFilter (some v) = "&to=" ++ v := by
    simp [dateFilter, truthy, hne]
  have e1 : "https://gnews.io/api/v4/search?q=".data =
      "https://gnews.io/api/v4/search".data ++ '?' :: "q=".data := by decide
  have e2 : "&country=br&max=10".data =
      '&' :: "country=br".data ++ '&' :: "max=10".data := by decide
  have e3 : "&to=".data = '&' :: "to=".data := by decide
  have e5 : "&token=".data = '&' :: "token=".data := by decide
  have hurl : (manualUrl key (some v)).data =
      "https://gnews.io/api/v4/search".data ++ '?' ::
        (("q=" ++ fixedQuery).data ++ '&' ::
          ("country=br".data ++ '&' ::
            ("max=10".data ++ '&' ::
              (("to=".data ++ v.data) ++ '&' ::
                ("token=".data ++ key.data))))) := by
    simp only [manualUrl, hdf, String.data_append, e1, e2, e3, e5,
      List.append_assoc, List.cons_append, List.singleton_append,
      List.nil_append]
  have hpre : ∀ x ∈ "https://gnews.io/api/v4/search".data,
      (x != '?') = true := by decide
  rw [queryChars, hurl, dropWhile_append_of_all _ _ _ hpre]
  have hqm : (('?' : Char) != '?') = false := by decide
  simp [List.dropWhile_cons, hqm]

set_option maxRecDepth 4000 in
/-- Decoding the outbound url when the to value contains an ampersand,
written v = A&B with A ampersand-free (B arbitrary): the to parameter
carries only A, and every ampersand-separated piece of B arrives as its own
caller-chosen parameter before the token. -/
theorem manual_url_parse (key v : String) (A B : List Char)
    (hk : '&' ∉ key.data) (hAB : A ++ '&' :: B = v.data) (hA : '&' ∉ A)
    (hne : v ≠ "") :
    parseQuery (manualUrl key (some v)) =
      [("q", fixedQuery), ("country", "br"), ("max", "10"),
       ("to", String.mk A)]
      ++ (splitOnChar '&' B).map parsePair ++ [("token", key)] := by
  have m1 : '&' ∉ ("q=" ++ fixedQuery).data := by decide
  have m2 : '&' ∉ "country=br".data := by decide
  have m3 : '&' ∉ "max=10".data := by decide
  have m4 : '&' ∉ ("to=".data ++ A) := by
    intro hmem
    rcases List.mem_append.mp hmem with hm | hm
    · exact absurd hm (by decide)
    · exact hA hm
  have m6 : '&' ∉ ("token=".data ++ key.data) := by
    intro hmem
    rcases List.mem_append.mp hmem with hm | hm
    · exact absurd hm (by decide)
    · exact hk hm
  have hto : "to=".data ++ v.data = ("to=".data ++ A) ++ '&' :: B := by
    rw [← hAB, List.append_assoc]
  have hsplit : splitOnChar '&' (queryChars (manualUrl key (some v))) =
      ("q=" ++ fixedQuery).data :: "country=br".data :: "max=10".data ::
        ((("to=".data ++ A) :: splitOnChar '&' B) ++
          [("token=".data ++ key.data)]) := by
    rw [manualUrl_queryChars key v hne,
      splitOnChar_append_sep _ _ _ m1, splitOnChar_append_sep _ _ _ m2,
      splitOnChar_append_sep _ _ _ m3, splitOnChar_append_split,
      splitOnChar_no_sep _ _ m6, hto, splitOnChar_append_sep _ _ _ m4]
  have p1 : parsePair ("q=" ++ fixedQuery).data = ("q", fixedQuery) := by
    decide
  have p2 : parsePair "country=br".data = ("country", "br") := by decide
  have p3 : parsePair "max=10".data = ("max", "10") := by decide
  have p4 : parsePair ("to=".data ++ A) = ("to", String.mk A) := rfl
  have p5 : parsePair ("token=".data ++ key.data) = ("token", key) := rfl
  unfold parseQuery
  rw [hsplit]
  simp only [List.map_cons, List.map_append, List.map_nil]
  rw [p1, p2, p3, p4, p5]
  simp

set_option maxRecDepth 4000 in
/-- Decoding the outbound url when the to value contains no ampersand: the
query decodes to exactly the five intended parameters, with the caller
value carried in full as to, whether or not it contains equals signs. -/
theorem manual_url_parse_noamp (key v : String)
    (hk : '&' ∉ key.data) (hv : '&' ∉ v.data) (hne : v ≠ "") :
    parseQuery (manualUrl key (some v)) =
      [("q", fixedQuery), ("country", "br"), ("max", "10"),
       ("to", v), ("token", key)] := by
  have m1 : '&' ∉ ("q=" ++ fixedQuery).data := by decide
  have m2 : '&' ∉ "country=br".data := by decide
  have m3 : '&' ∉ "max=10".data := by decide
  have m4 : '&' ∉ ("to=".data ++ v.data) := by
    intro hmem
    rcases List.mem_append.mp hmem with hm | hm
    · exact absurd hm (by decide)
    · exact hv hm
  have m6 : '&' ∉ ("token=".data ++ key.data) := by
    intro hmem
    rcases List.mem_append.mp hmem with hm | hm
    · exact absurd hm (by decide)
    · exact hk hm
  have hsplit : splitOnChar '&' (queryChars (manualUrl key (some v))) =
      [("q=" ++ fixedQuery).data, "country=br".data, "max=10".data,
       "to=".data ++ v.data, "token=".data ++ key.data] := by
    rw [manualUrl_queryChars key v hne,
      splitOnChar_append_sep _ _ _ m1, splitOnChar_append_sep _ _ _ m2,
      splitOnChar_append_sep _ _ _ m3, splitOnChar_append_sep _ _ _ m4,
      splitOnChar_no_sep _ _ m6]
  have p1 : parsePair ("q=" ++ fixedQuery).data = ("q", fixedQuery) := by
    decide
  have p2 : parsePair "country=br".data = ("country", "br") := by decide
  have p3 : parsePair "max=10".data = ("max", "10") := by decide
  have p4 : parsePair ("to=".data ++ v.data) = ("to", v) := rfl
  have p5 : parsePair ("token=".data ++ key.data) = ("token", key) := rfl
  unfold parseQuery
  rw [hsplit]
  simp only [List.map_cons, List.map_nil]
  rw [p1, p2, p3, p4, p5]

/-- C9 counterexample: the caller value x=y contains an equals sign but no
ampersand, and the outbound url still decodes to exactly the five intended
parameters, the caller value carried whole as to — no additional or altered
parameter appears, so a value merely containing an equals sign does not
give the caller control over the upstream query. -/
theorem manual_to_eq_no_injection :
    parseQuery (manualUrl "KEY" (some "x=y")) =
      [("q", fixedQuery), ("country", "br"), ("max", "10"),
       ("to", "x=y"), ("token", "KEY")] :=
  manual_url_parse_noamp "KEY" "x=y" (by decide) (by decide) (by decide)

set_option maxRecDepth 4000 in
/-- C9 as amended: a present to value is concatenated verbatim, without
encoding, into the outbound url (first conjunct); for any caller value
containing an ampersand, the decoded outbound query carries the to value
truncated at the first ampersand, and every ampersand-separated piece of
the remainder arrives as a further parameter (second conjunct), of which
there is at least one (third conjunct) — additional parameters entirely
chosen by the caller. -/
theorem manual_to_injection (key v : String)
    (hk : '&' ∉ key.data) (hv : '&' ∈ v.data) :
    dateFilter (some v) = "&to=" ++ v ∧
    parseQuery (manualUrl key (some v)) =
      [("q", fixedQuery), ("country", "br"), ("max", "10"),
       ("to", String.mk (v.data.takeWhile (fun c => c != '&')))]
      ++ (splitOnChar '&'
            ((v.data.dropWhile (fun c => c != '&')).drop 1)).map parsePair
      ++ [("token", key)] ∧
    (splitOnChar '&'
        ((v.data.dropWhile (fun c => c != '&')).drop 1)).map parsePair ≠ [] := by
  have hne : v ≠ "" := by
    intro h
    subst h
    exact absurd hv (by decide)
  obtain ⟨hAB, hA⟩ := split_at_first_mem '&' v.data hv
  refine ⟨by simp [dateFilter, truthy, hne],
    manual_url_parse key v _ _ hk hAB hA hne, ?_⟩
  intro hmap
  exact splitOnChar_ne_nil '&' _ (List.map_eq_nil_iff.mp hmap)

set_option maxRecDepth 4000 in
/-- Witness for C9: the caller supplies to=2024-01-01&max=100 and the
outbound url decodes to a query carrying the caller-chosen max=100 pair
next to the truncated to. -/
theorem manual_to_injection_witness :
    '&' ∉ "KEY".data ∧ '&' ∈ "2024-01-01&max=100".data ∧
    (dateFilter (some "2024-01-01&max=100") = "&to=" ++ "2024-01-01&max=100" ∧
     parseQuery (manualUrl "KEY" (some "2024-01-01&max=100")) =
       [("q", fixedQuery), ("country", "br"), ("max", "10"),
        ("to", String.mk ("2024-01-01&max=100".data.takeWhile
          (fun c => c != '&')))]
       ++ (splitOnChar '&'
             (("2024-01-01&max=100".data.dropWhile
               (fun c => c != '&')).drop 1)).map parsePair
       ++ [("token", "KEY")] ∧
     (splitOnChar '&'
         (("2024-01-01&max=100".data.dropWhile
           (fun c => c != '&')).drop 1)).map parsePair ≠ []) :=
  ⟨by decide, by decide,
   manual_to_injection "KEY" "2024-01-01&max=100" (by decide) (by decide)⟩

end ChamaControl
